import Mathlib

/-
  Shallow embedding of the w6_mem ownership/allocation core:
  - IAllocator / allocation environment (allocator.h)
  - UniquePtr<T> (scalar) and UniquePtr<T[]> (array) with move, swap,
    destructor and dereference semantics (unique_ptr.h)
  - make_unique scalar and array construction helpers (unique_ptr.h)
  - StlAllocator container adapter (stl_allocator.h)

  Pointers and allocator instances are modelled as naturals, 0 being the
  null pointer / null allocator reference.  Side effects (element
  destruction, deallocation, in-place construction, allocation requests)
  are modelled as explicit event lists.
-/

namespace w6_mem

/-- A machine address; 0 models the null pointer. -/
abbrev Addr := Nat

/-- Behaviour of the world of IAllocator instances: given the allocator
instance id, a byte size and an alignment, the address returned by that
instance's virtual allocate (0 = allocation failure / null). -/
abbrev AllocEnv := Nat → Nat → Nat → Addr

/-- Observable side effects of destructor runs: destruction of the object
at an address, and a deallocate call on an allocator instance with the
memory block address. -/
inductive Event where
  | destroy : Addr → Event
  | dealloc : Nat → Addr → Event
deriving DecidableEq

/-- Recognises element/object destruction events. -/
def Event.isDestroy : Event → Bool
  | .destroy _ => true
  | .dealloc _ _ => false

/-- Recognises deallocate events. -/
def Event.isDealloc : Event → Bool
  | .destroy _ => false
  | .dealloc _ _ => true

/-- State of the scalar UniquePtr: the triple of members m_allocator,
m_ptr, m_allocated_memory (0 = null for each). -/
structure UniquePtr where
  m_allocator : Nat
  m_ptr : Addr
  m_allocated_memory : Addr
deriving DecidableEq

/-- The default and nullptr constructors: all three members null. -/
def UniquePtr.null : UniquePtr :=
  { m_allocator := 0, m_ptr := 0, m_allocated_memory := 0 }

/-- Member swap: exchanges m_allocator, m_ptr and m_allocated_memory of
the two objects; returns (new this, new other). -/
def UniquePtr.swap (a b : UniquePtr) : UniquePtr × UniquePtr :=
  ({ m_allocator := b.m_allocator, m_ptr := b.m_ptr,
     m_allocated_memory := b.m_allocated_memory },
   { m_allocator := a.m_allocator, m_ptr := a.m_ptr,
     m_allocated_memory := a.m_allocated_memory })

/-- Free function swap(lhs, rhs): calls lhs.swap(rhs). -/
def swapFn (lhs rhs : UniquePtr) : UniquePtr × UniquePtr :=
  UniquePtr.swap lhs rhs

/-- Move constructor: this is initialised to all-null members and then
swaps with other; returns (constructed this, new other). -/
def UniquePtr.moveCtor (other : UniquePtr) : UniquePtr × UniquePtr :=
  UniquePtr.swap UniquePtr.null other

/-- Destructor: if m_ptr and m_allocator are both non-null, destroy the
object at m_ptr then call deallocate on m_allocator with
m_allocated_memory; otherwise do nothing. -/
def UniquePtr.dtor (p : UniquePtr) : List Event :=
  if p.m_ptr ≠ 0 ∧ p.m_allocator ≠ 0 then
    [Event.destroy p.m_ptr, Event.dealloc p.m_allocator p.m_allocated_memory]
  else []

/-- Move assignment dst = move(src): constructs a temporary by move from
src, swaps the temporary with dst, then destroys the temporary (which
now holds dst's old state).  Returns (new dst, new src, destructor
events of the temporary). -/
def UniquePtr.moveAssign (dst src : UniquePtr) : UniquePtr × UniquePtr × List Event :=
  let s1 := UniquePtr.moveCtor src
  let s2 := UniquePtr.swap s1.1 dst
  (s2.2, s1.2, UniquePtr.dtor s2.1)

/-- Move self-assignment p = move(p), traced with the aliasing made
explicit: the temporary is move-constructed from p (nulling p), then the
temporary swaps with the same, now-null p.  Returns (new p, destructor
events of the temporary). -/
def UniquePtr.moveAssignSelf (p : UniquePtr) : UniquePtr × List Event :=
  let s1 := UniquePtr.moveCtor p
  let s2 := UniquePtr.swap s1.1 s1.2
  (s2.2, UniquePtr.dtor s2.1)

/-- get(): returns m_ptr. -/
def UniquePtr.get (p : UniquePtr) : Addr := p.m_ptr

/-- explicit operator bool: !!m_ptr. -/
def UniquePtr.opBool (p : UniquePtr) : Bool := p.m_ptr != 0

/-- operator* in a debug build: assert(m_ptr) then dereference; the
assertion firing is modelled as none, success as some m_ptr. -/
def UniquePtr.opStar (p : UniquePtr) : Option Addr :=
  if p.m_ptr = 0 then none else some p.m_ptr

/-- operator-> : returns m_ptr with no assertion, so it never fails even
in debug builds (never none). -/
def UniquePtr.opArrow (p : UniquePtr) : Option Addr :=
  some p.m_ptr

/-- State of the array UniquePtr<T[]>: the scalar triple plus m_length. -/
structure UniquePtrArray where
  m_allocator : Nat
  m_ptr : Addr
  m_allocated_memory : Addr
  m_length : Nat
deriving DecidableEq

/-- The default and nullptr array constructors: null members, length 0. -/
def UniquePtrArray.null : UniquePtrArray :=
  { m_allocator := 0, m_ptr := 0, m_allocated_memory := 0, m_length := 0 }

/-- Array move constructor: copies all four members from other, then sets
other's members to null / 0.  Returns (constructed this, new other). -/
def UniquePtrArray.moveCtor (other : UniquePtrArray) : UniquePtrArray × UniquePtrArray :=
  ({ m_allocator := other.m_allocator, m_ptr := other.m_ptr,
     m_allocated_memory := other.m_allocated_memory, m_length := other.m_length },
   UniquePtrArray.null)

/-- Array member swap: exchanges all four members. -/
def UniquePtrArray.swap (a b : UniquePtrArray) : UniquePtrArray × UniquePtrArray :=
  ({ m_allocator := b.m_allocator, m_ptr := b.m_ptr,
     m_allocated_memory := b.m_allocated_memory, m_length := b.m_length },
   { m_allocator := a.m_allocator, m_ptr := a.m_ptr,
     m_allocated_memory := a.m_allocated_memory, m_length := a.m_length })

/-- Array destructor: if m_ptr and m_allocator are both non-null, destroy
the m_length elements from m_ptr to m_ptr + m_length in one pass, then
call deallocate on m_allocator with m_allocated_memory. -/
def UniquePtrArray.dtor (p : UniquePtrArray) : List Event :=
  if p.m_ptr ≠ 0 ∧ p.m_allocator ≠ 0 then
    ((List.range p.m_length).map fun i => Event.destroy (p.m_ptr + i))
      ++ [Event.dealloc p.m_allocator p.m_allocated_memory]
  else []

/-- Array move assignment: temporary move-constructed from src, swapped
with dst, temporary destroyed.  Returns (new dst, new src, destructor
events of the temporary). -/
def UniquePtrArray.moveAssign (dst src : UniquePtrArray) :
    UniquePtrArray × UniquePtrArray × List Event :=
  let s1 := UniquePtrArray.moveCtor src
  let s2 := UniquePtrArray.swap s1.1 dst
  (s2.2, s1.2, UniquePtrArray.dtor s2.1)

/-- Array get(): returns m_ptr. -/
def UniquePtrArray.get (p : UniquePtrArray) : Addr := p.m_ptr

/-- Array length(): returns m_length. -/
def UniquePtrArray.length (p : UniquePtrArray) : Nat := p.m_length

/-- Array explicit operator bool: !!m_ptr. -/
def UniquePtrArray.opBool (p : UniquePtrArray) : Bool := p.m_ptr != 0

/-- make_unique (scalar): for a null allocator returns the empty pointer
constructing nothing; otherwise requests allocate(sizeof(T), alignof(T));
a null result gives the empty pointer, else one object is placement-new
constructed at the returned memory with the supplied arguments.  Returns
the pointer and the list of (address, arguments) of constructed objects. -/
def make_unique {α : Type} (env : AllocEnv) (allocator : Nat)
    (sizeofT alignofT : Nat) (args : α) : UniquePtr × List (Addr × α) :=
  if allocator = 0 then (UniquePtr.null, [])
  else
    let memory := env allocator sizeofT alignofT
    if memory = 0 then (UniquePtr.null, [])
    else ({ m_allocator := allocator, m_ptr := memory, m_allocated_memory := memory },
          [(memory, args)])

/-- make_unique (array): for a null allocator returns the empty array
pointer with no allocator request; otherwise requests
allocate(sizeof(T) * length, alignof(T)); a null result gives the empty
pointer, else length elements are default-constructed in the block and
the pointer records the length.  Returns the pointer, the addresses of
constructed elements, and the (size, alignment) requests issued to the
underlying allocator. -/
def make_unique_array (env : AllocEnv) (allocator : Nat)
    (sizeofT alignofT len : Nat) :
    UniquePtrArray × List Addr × List (Nat × Nat) :=
  if allocator = 0 then (UniquePtrArray.null, [], [])
  else
    let size := sizeofT * len
    let memory := env allocator size alignofT
    if memory = 0 then (UniquePtrArray.null, [], [(size, alignofT)])
    else ({ m_allocator := allocator, m_ptr := memory,
            m_allocated_memory := memory, m_length := len },
          (List.range len).map (fun i => memory + i), [(size, alignofT)])

/-- State of the container adapter StlAllocator<T>: the single member
m_allocator, the referenced IAllocator instance (element type erased:
sizeof/alignof of the element type are passed to allocate). -/
structure StlAllocator where
  m_allocator : Nat
deriving DecidableEq

/-- Rebinding copy constructor StlAllocator<T>(const StlAllocator<U>&):
copies other.get_allocator(), keeping the same underlying instance. -/
def StlAllocator.rebindCopy (other : StlAllocator) : StlAllocator :=
  { m_allocator := other.m_allocator }

/-- get_allocator(): the underlying IAllocator instance. -/
def StlAllocator.get_allocator (a : StlAllocator) : Nat := a.m_allocator

/-- operator==: pointer identity of the two m_allocator members. -/
def StlAllocator.opEq (a b : StlAllocator) : Bool :=
  a.m_allocator == b.m_allocator

/-- operator!=: the negation of operator==. -/
def StlAllocator.opNe (a b : StlAllocator) : Bool :=
  !(StlAllocator.opEq a b)

/-- allocate(n) on a w-bit size_type: n = 0 returns null with no request
to the underlying allocator; otherwise delegates with byte size
n * sizeof(T) computed in w-bit unsigned arithmetic (wrapping modulo
2 ^ w) and alignment alignof(T).  Returns the address and the list of
(size, alignment) requests issued to the underlying allocator. -/
def StlAllocator.allocate (w : Nat) (env : AllocEnv) (a : StlAllocator)
    (sizeofT alignofT n : Nat) : Addr × List (Nat × Nat) :=
  if n = 0 then (0, [])
  else
    let size := n * sizeofT % 2 ^ w
    (env a.m_allocator size alignofT, [(size, alignofT)])

/-- The spec's array invariant: length == 0 iff the managed pointer and
the backing allocation are both null. -/
def arrayInv (p : UniquePtrArray) : Prop :=
  p.m_length = 0 ↔ (p.m_ptr = 0 ∧ p.m_allocated_memory = 0)

instance (p : UniquePtrArray) : Decidable (arrayInv p) := by
  unfold arrayInv; infer_instance

/-- C1: for an array pointer in the Owning state (non-null m_ptr and
m_allocator) with length N, the destructor destroys exactly N elements,
in a single pass over the range, and then issues exactly one deallocate,
to the recorded allocator with the recorded allocation. -/
theorem array_dtor_destroys_length_then_deallocates_once
    (p : UniquePtrArray) (hptr : p.m_ptr ≠ 0) (halloc : p.m_allocator ≠ 0) :
    p.dtor.countP Event.isDestroy = p.m_length ∧
    p.dtor.countP Event.isDealloc = 1 ∧
    p.dtor = ((List.range p.m_length).map fun i => Event.destroy (p.m_ptr + i))
      ++ [Event.dealloc p.m_allocator p.m_allocated_memory] := by
  unfold UniquePtrArray.dtor
  rw [if_pos ⟨hptr, halloc⟩]
  refine ⟨?_, ?_, rfl⟩
  · simp [List.countP_append, List.countP_map, Event.isDestroy, Event.isDealloc,
      Function.comp_def]
  · simp [List.countP_append, List.countP_map, Event.isDestroy, Event.isDealloc,
      Function.comp_def]

/-- Witness for C1 at the concrete owning array pointer (2, 7, 7, 3). -/
theorem array_dtor_destroys_length_then_deallocates_once_witness :
    (⟨2, 7, 7, 3⟩ : UniquePtrArray).dtor.countP Event.isDestroy
        = (⟨2, 7, 7, 3⟩ : UniquePtrArray).m_length ∧
    (⟨2, 7, 7, 3⟩ : UniquePtrArray).dtor.countP Event.isDealloc = 1 ∧
    (⟨2, 7, 7, 3⟩ : UniquePtrArray).dtor
      = ((List.range (⟨2, 7, 7, 3⟩ : UniquePtrArray).m_length).map
          fun i => Event.destroy ((⟨2, 7, 7, 3⟩ : UniquePtrArray).m_ptr + i))
        ++ [Event.dealloc (⟨2, 7, 7, 3⟩ : UniquePtrArray).m_allocator
              (⟨2, 7, 7, 3⟩ : UniquePtrArray).m_allocated_memory] :=
  array_dtor_destroys_length_then_deallocates_once ⟨2, 7, 7, 3⟩ (by decide) (by decide)

/-- C2: the scalar make_unique returns the empty pointer (operator bool
false, get null) constructing nothing when the allocator is null or its
allocate returns null, and otherwise returns a non-empty pointer to
exactly one object constructed at the allocated address with the
supplied arguments. -/
theorem make_unique_failure_empty_success_constructs_one {α : Type}
    (env : AllocEnv) (allocator sizeofT alignofT : Nat) (args : α) :
    (allocator = 0 ∨ env allocator sizeofT alignofT = 0 →
      (make_unique env allocator sizeofT alignofT args).1.opBool = false ∧
      (make_unique env allocator sizeofT alignofT args).1.get = 0 ∧
      (make_unique env allocator sizeofT alignofT args).2 = []) ∧
    (allocator ≠ 0 → env allocator sizeofT alignofT ≠ 0 →
      (make_unique env allocator sizeofT alignofT args).1.opBool = true ∧
      (make_unique env allocator sizeofT alignofT args).1.get
          = env allocator sizeofT alignofT ∧
      (make_unique env allocator sizeofT alignofT args).2
          = [(env allocator sizeofT alignofT, args)]) := by
  constructor
  · intro h
    by_cases ha : allocator = 0
    · simp [make_unique, ha, UniquePtr.null, UniquePtr.opBool, UniquePtr.get]
    · rcases h with h | h
      · exact absurd h ha
      · simp [make_unique, ha, h, UniquePtr.null, UniquePtr.opBool, UniquePtr.get]
  · intro h1 h2
    simp [make_unique, h1, h2, UniquePtr.opBool, UniquePtr.get]

/-- Witness for C2: a failing allocation yields the empty pointer with
no construction, and a succeeding one constructs exactly one object. -/
theorem make_unique_failure_empty_success_constructs_one_witness :
    ((make_unique (fun _ _ _ => 0) 1 4 4 (5 : Nat)).1.opBool = false ∧
     (make_unique (fun _ _ _ => 0) 1 4 4 (5 : Nat)).1.get = 0 ∧
     (make_unique (fun _ _ _ => 0) 1 4 4 (5 : Nat)).2 = []) ∧
    ((make_unique (fun _ _ _ => 9) 1 4 4 (5 : Nat)).1.opBool = true ∧
     (make_unique (fun _ _ _ => 9) 1 4 4 (5 : Nat)).1.get = 9 ∧
     (make_unique (fun _ _ _ => 9) 1 4 4 (5 : Nat)).2 = [(9, (5 : Nat))]) :=
  ⟨(make_unique_failure_empty_success_constructs_one
      (fun _ _ _ => 0) 1 4 4 (5 : Nat)).1 (Or.inr rfl),
   (make_unique_failure_empty_success_constructs_one
      (fun _ _ _ => 9) 1 4 4 (5 : Nat)).2 (by decide) (by decide)⟩

/-- C3: moving from a non-empty scalar pointer, by move construction or
move assignment, leaves the source with operator bool false and get
null, while the destination holds the source's original
allocator/pointer/allocation triple intact. -/
theorem move_transfers_triple_and_empties_source (p q : UniquePtr)
    (hp : p.opBool = true) :
    ((UniquePtr.moveCtor p).1 = p ∧
     (UniquePtr.moveCtor p).2.opBool = false ∧
     (UniquePtr.moveCtor p).2.get = 0) ∧
    ((UniquePtr.moveAssign q p).1 = p ∧
     (UniquePtr.moveAssign q p).2.1.opBool = false ∧
     (UniquePtr.moveAssign q p).2.1.get = 0) :=
  ⟨⟨rfl, rfl, rfl⟩, ⟨rfl, rfl, rfl⟩⟩

/-- Witness for C3 at the concrete non-empty pointer (1, 5, 5) moved
into (1, 6, 6). -/
theorem move_transfers_triple_and_empties_source_witness :
    ((UniquePtr.moveCtor ⟨1, 5, 5⟩).1 = (⟨1, 5, 5⟩ : UniquePtr) ∧
     (UniquePtr.moveCtor ⟨1, 5, 5⟩).2.opBool = false ∧
     (UniquePtr.moveCtor ⟨1, 5, 5⟩).2.get = 0) ∧
    ((UniquePtr.moveAssign ⟨1, 6, 6⟩ ⟨1, 5, 5⟩).1 = (⟨1, 5, 5⟩ : UniquePtr) ∧
     (UniquePtr.moveAssign ⟨1, 6, 6⟩ ⟨1, 5, 5⟩).2.1.opBool = false ∧
     (UniquePtr.moveAssign ⟨1, 6, 6⟩ ⟨1, 5, 5⟩).2.1.get = 0) :=
  move_transfers_triple_and_empties_source ⟨1, 5, 5⟩ ⟨1, 6, 6⟩ (by decide)

/-- C4 counterexample: the array make_unique with a non-null allocator,
length 0 and an allocator whose zero-byte allocate returns the non-null
address 1 produces a publicly reachable array pointer with length 0 but
a non-null pointer and allocation, refuting the claimed invariant. -/
theorem arrayInv_fails_for_zero_length_nonnull_allocation :
    ¬ arrayInv (make_unique_array (fun _ _ _ => 1) 1 4 4 0).1 := by decide

/-- C4 amended: the invariant length = 0 iff pointer and allocation are
null holds for default/null construction, for the array make_unique
whenever a zero length implies the zero-byte allocate returns null, and
is preserved by move construction, swap and move assignment; after a
move-out the source is the fully null pointer with length 0. -/
theorem arrayInv_holds_when_zero_size_alloc_null :
    arrayInv UniquePtrArray.null ∧
    (∀ (env : AllocEnv) (allocator sizeofT alignofT len : Nat),
      (len = 0 → env allocator 0 alignofT = 0) →
      arrayInv (make_unique_array env allocator sizeofT alignofT len).1) ∧
    (∀ p : UniquePtrArray, arrayInv p →
      arrayInv (UniquePtrArray.moveCtor p).1 ∧
      (UniquePtrArray.moveCtor p).2 = UniquePtrArray.null) ∧
    (∀ p q : UniquePtrArray, arrayInv p → arrayInv q →
      arrayInv (UniquePtrArray.swap p q).1 ∧
      arrayInv (UniquePtrArray.swap p q).2) ∧
    (∀ p q : UniquePtrArray, arrayInv q →
      arrayInv (UniquePtrArray.moveAssign p q).1 ∧
      (UniquePtrArray.moveAssign p q).2.1 = UniquePtrArray.null) := by
  refine ⟨by decide, ?_, fun p hp => ⟨hp, rfl⟩,
    fun p q hp hq => ⟨hq, hp⟩, fun p q hq => ⟨hq, rfl⟩⟩
  intro env allocator sizeofT alignofT len h
  by_cases ha : allocator = 0
  · simp [make_unique_array, ha, arrayInv, UniquePtrArray.null]
  · by_cases hl : len = 0
    · subst hl
      have hz : env allocator 0 alignofT = 0 := h rfl
      simp [make_unique_array, ha, hz, arrayInv, UniquePtrArray.null]
    · by_cases hm : env allocator (sizeofT * len) alignofT = 0
      · simp [make_unique_array, ha, hm, arrayInv, UniquePtrArray.null]
      · simp [make_unique_array, ha, hm, arrayInv, hl]

/-- Witness for C4 amended at concrete inputs discharging each
hypothesis. -/
theorem arrayInv_holds_when_zero_size_alloc_null_witness :
    arrayInv (make_unique_array (fun _ _ _ => 0) 1 4 4 0).1 ∧
    arrayInv (UniquePtrArray.moveCtor ⟨1, 5, 5, 2⟩).1 ∧
    (UniquePtrArray.moveCtor (⟨1, 5, 5, 2⟩ : UniquePtrArray)).2
        = UniquePtrArray.null ∧
    arrayInv (UniquePtrArray.swap ⟨1, 5, 5, 2⟩ UniquePtrArray.null).1 ∧
    arrayInv (UniquePtrArray.moveAssign ⟨1, 5, 5, 2⟩ ⟨1, 6, 6, 3⟩).1 := by
  have h := arrayInv_holds_when_zero_size_alloc_null
  exact ⟨h.2.1 (fun _ _ _ => 0) 1 4 4 0 (fun _ => rfl),
    (h.2.2.1 ⟨1, 5, 5, 2⟩ (by decide)).1,
    (h.2.2.1 ⟨1, 5, 5, 2⟩ (by decide)).2,
    (h.2.2.2.1 ⟨1, 5, 5, 2⟩ UniquePtrArray.null (by decide) (by decide)).1,
    (h.2.2.2.2 ⟨1, 5, 5, 2⟩ ⟨1, 6, 6, 3⟩ (by decide)).1⟩

/-- C5: scalar move assignment is self-assignment safe (p = move(p)
leaves p unchanged and destroys nothing), and assigning from a different
pointer into an owning destination destroys the old object and
deallocates its allocation exactly once, via the
construct-a-temporary-then-exchange implementation, while acquiring the
source's state. -/
theorem moveAssign_self_safe_and_releases_previous (p q : UniquePtr)
    (hq : q.m_ptr ≠ 0) (hqa : q.m_allocator ≠ 0) :
    UniquePtr.moveAssignSelf p = (p, []) ∧
    (UniquePtr.moveAssign q p).1 = p ∧
    (UniquePtr.moveAssign q p).2.2
      = [Event.destroy q.m_ptr,
         Event.dealloc q.m_allocator q.m_allocated_memory] := by
  refine ⟨rfl, rfl, ?_⟩
  show UniquePtr.dtor ⟨q.m_allocator, q.m_ptr, q.m_allocated_memory⟩ = _
  unfold UniquePtr.dtor
  rw [if_pos ⟨hq, hqa⟩]

/-- Witness for C5 at the concrete owning destination (1, 5, 6) and
source (1, 7, 8). -/
theorem moveAssign_self_safe_and_releases_previous_witness :
    UniquePtr.moveAssignSelf ⟨1, 7, 8⟩ = ((⟨1, 7, 8⟩ : UniquePtr), []) ∧
    (UniquePtr.moveAssign ⟨1, 5, 6⟩ ⟨1, 7, 8⟩).1 = (⟨1, 7, 8⟩ : UniquePtr) ∧
    (UniquePtr.moveAssign ⟨1, 5, 6⟩ ⟨1, 7, 8⟩).2.2
      = [Event.destroy 5, Event.dealloc 1 6] :=
  moveAssign_self_safe_and_releases_previous ⟨1, 7, 8⟩ ⟨1, 5, 6⟩
    (by decide) (by decide)

/-- C6: member swap and the free swap function exchange the full states
of two scalar pointers; two non-empty pointers both stay non-empty with
values exchanged, and swapping a non-empty with an empty pointer yields
exactly one empty and one non-empty with the value preserved. -/
theorem swap_exchanges_full_states (p q : UniquePtr) :
    UniquePtr.swap p q = (q, p) ∧
    swapFn p q = (q, p) ∧
    (p.opBool = true → q.opBool = true →
      (UniquePtr.swap p q).1.opBool = true ∧
      (UniquePtr.swap p q).2.opBool = true ∧
      (UniquePtr.swap p q).1 = q ∧ (UniquePtr.swap p q).2 = p) ∧
    (p.opBool = true → q.opBool = false →
      (UniquePtr.swap p q).1.opBool = false ∧
      (UniquePtr.swap p q).2.opBool = true ∧
      (UniquePtr.swap p q).2 = p) :=
  ⟨rfl, rfl, fun hp hq => ⟨hq, hp, rfl, rfl⟩, fun hp hq => ⟨hq, hp, rfl⟩⟩

/-- Witness for C6 at the non-empty pointer (1, 5, 5) and the empty
pointer, discharging both implications at concrete inputs. -/
theorem swap_exchanges_full_states_witness :
    (UniquePtr.swap ⟨1, 5, 5⟩ UniquePtr.null).2 = (⟨1, 5, 5⟩ : UniquePtr) ∧
    (UniquePtr.swap ⟨1, 5, 5⟩ UniquePtr.null).1.opBool = false ∧
    (UniquePtr.swap ⟨1, 5, 5⟩ ⟨1, 6, 6⟩).1.opBool = true ∧
    (UniquePtr.swap ⟨1, 5, 5⟩ ⟨1, 6, 6⟩).1 = (⟨1, 6, 6⟩ : UniquePtr) := by
  have h1 := (swap_exchanges_full_states ⟨1, 5, 5⟩ UniquePtr.null).2.2.2
    (by decide) (by decide)
  have h2 := (swap_exchanges_full_states ⟨1, 5, 5⟩ ⟨1, 6, 6⟩).2.2.1
    (by decide) (by decide)
  exact ⟨h1.2.2, h1.1, h2.1, h2.2.2.1⟩

/-- C7 counterexample: on the empty pointer, operator-> does not trigger
the debug assertion (it is not the failing result none), refuting the
claim that both dereference operators assert on an empty pointer. -/
theorem opArrow_on_empty_does_not_assert :
    UniquePtr.null.opBool = false ∧ UniquePtr.null.opArrow ≠ none := by decide

/-- C7 amended: in debug builds, operator* on an empty scalar pointer
triggers the assertion, while operator-> performs no assertion and
returns the null pointer unchecked. -/
theorem empty_deref_star_asserts_arrow_does_not (p : UniquePtr)
    (h : p.opBool = false) :
    p.opStar = none ∧ p.opArrow = some 0 := by
  have hp : p.m_ptr = 0 := by
    simpa [UniquePtr.opBool] using h
  simp [UniquePtr.opStar, UniquePtr.opArrow, hp]

/-- Witness for C7 amended at the empty pointer. -/
theorem empty_deref_star_asserts_arrow_does_not_witness :
    UniquePtr.null.opStar = none ∧ UniquePtr.null.opArrow = some 0 :=
  empty_deref_star_asserts_arrow_does_not UniquePtr.null (by decide)

/-- C8: two container adapter instances compare equal with operator==
exactly when they reference the same underlying allocator instance,
operator!= is the exact negation, and rebinding preserves the referenced
instance so a rebound copy compares equal to the original. -/
theorem stlAllocator_eq_iff_same_instance (a b : StlAllocator) :
    (StlAllocator.opEq a b = true ↔ a.get_allocator = b.get_allocator) ∧
    StlAllocator.opNe a b = !StlAllocator.opEq a b ∧
    StlAllocator.opEq (StlAllocator.rebindCopy a) a = true ∧
    (StlAllocator.rebindCopy a).get_allocator = a.get_allocator := by
  refine ⟨?_, rfl, ?_, rfl⟩
  · simp [StlAllocator.opEq, StlAllocator.get_allocator]
  · simp [StlAllocator.opEq, StlAllocator.rebindCopy]

/-- C9: the array make_unique with a non-null allocator and length 0
still issues exactly one request to the underlying allocator, of size 0,
and the truthiness of the returned pointer equals whether that zero-size
allocate returned non-null; the container adapter instead returns null
for a zero count without any request to the underlying allocator. -/
theorem zero_length_array_consults_allocator_adapter_does_not
    (env : AllocEnv) (allocator sizeofT alignofT : Nat) (ha : allocator ≠ 0)
    (w : Nat) (sa : StlAllocator) (sizeofU alignofU : Nat) :
    (make_unique_array env allocator sizeofT alignofT 0).2.2
        = [(0, alignofT)] ∧
    (make_unique_array env allocator sizeofT alignofT 0).1.opBool
        = (env allocator 0 alignofT != 0) ∧
    StlAllocator.allocate w env sa sizeofU alignofU 0 = (0, []) := by
  refine ⟨?_, ?_, rfl⟩ <;>
    by_cases hm : env allocator 0 alignofT = 0 <;>
      simp [make_unique_array, ha, hm, UniquePtrArray.null, UniquePtrArray.opBool]

/-- Witness for C9 at a concrete non-null allocator whose zero-byte
allocate returns address 3. -/
theorem zero_length_array_consults_allocator_adapter_does_not_witness :
    (make_unique_array (fun _ _ _ => 3) 1 4 4 0).2.2 = [(0, 4)] ∧
    (make_unique_array (fun _ _ _ => 3) 1 4 4 0).1.opBool = ((3 : Nat) != 0) ∧
    StlAllocator.allocate 64 (fun _ _ _ => 3) ⟨1⟩ 8 8 0 = (0, []) :=
  zero_length_array_consults_allocator_adapter_does_not
    (fun _ _ _ => 3) 1 4 4 (by decide) 64 ⟨1⟩ 8 8

/-- C10: for a positive count n whose byte size n * sizeof(T) reaches
2 ^ w, the adapter's allocate computes the size in w-bit unsigned
arithmetic, issuing a request of size n * sizeof(T) mod 2 ^ w, which is
strictly smaller than the n * sizeof(T) bytes n elements need. -/
theorem stl_allocate_size_wraps_modulo_word (w : Nat) (env : AllocEnv)
    (a : StlAllocator) (sizeofT alignofT n : Nat)
    (hn : 0 < n) (hov : 2 ^ w ≤ n * sizeofT) :
    (StlAllocator.allocate w env a sizeofT alignofT n).2
        = [(n * sizeofT % 2 ^ w, alignofT)] ∧
    n * sizeofT % 2 ^ w < n * sizeofT := by
  constructor
  · simp [StlAllocator.allocate, hn.ne']
  · exact lt_of_lt_of_le
      (Nat.mod_lt _ (pow_pos (by decide) w)) hov

/-- Witness for C10 on an 8-bit size type with sizeof(T) = 4 and
n = 100: 400 bytes wrap to a 144-byte request. -/
theorem stl_allocate_size_wraps_modulo_word_witness :
    (StlAllocator.allocate 8 (fun _ _ _ => 3) ⟨1⟩ 4 4 100).2
        = [(100 * 4 % 2 ^ 8, 4)] ∧
    100 * 4 % 2 ^ 8 < 100 * 4 :=
  stl_allocate_size_wraps_modulo_word 8 (fun _ _ _ => 3) ⟨1⟩ 4 4 100
    (by decide) (by decide)

end w6_mem
